import Mathlib

/-
Verification of the tessara parameter-definition and validation engine.

The definitions below are a shallow embedding of the Python source under
src/tessara: values flowing through parameters are modelled by `PyVal`,
Python exceptions by `PyExc` together with `Except`, and the mutable
attributes of the Python objects by explicit record updates.  Dictionaries
(`dict` / `UserDict.data`) are modelled as insertion-ordered association
lists, with lookup returning the first match and assignment replacing the
binding in place (Python dictionaries keep unique keys, so the two agree
on every state the program can build).
-/

namespace Tessara

/-- Runtime types of the small value universe used to model Python values. -/
inductive PyType where
  | int
  | str
  | bool
  | noneType
  deriving DecidableEq, Repr

/-- Python values stored in parameters: the embedding uses a small closed
universe (None, int, str, bool) that is enough to exercise every claim. -/
inductive PyVal where
  | none
  | int (n : Int)
  | str (s : String)
  | bool (b : Bool)
  deriving DecidableEq, Repr

/-- Runtime type of a value, as `type(v)` would report it. -/
def PyVal.typeOf : PyVal → PyType
  | .none => .noneType
  | .int _ => .int
  | .str _ => .str
  | .bool _ => .bool

/-- Embeds `isinstance(v, t)` for the value universe.  In CPython `bool` is a
subclass of `int`, so a boolean is an instance of `int` as well. -/
def PyVal.isinstanceOf (v : PyVal) (t : PyType) : Bool :=
  v.typeOf == t || (v.typeOf == PyType.bool && t == PyType.int)

/-- Python exceptions raised by the embedded code paths. -/
inductive PyExc where
  | unboundLocalError (name : String)
  | attributeError (name : String)
  | nameError (name : String)
  | typeError (msg : String)
  | keyError (name : String)
  | overrideParameterError (name : String)
  | unknownParameterError (name : String)
  | globalValidationError (count : Nat)
  deriving DecidableEq, Repr

-- == Rules (src/tessara/validation/rules.py) ==

/-- Embeds `RangeRule.__init__` (rules.py lines 250 to 259): the four optional
bounds, stored in the signature order `ge, gt, le, lt`; a missing bound is
`Option.none` (Python `None`). -/
structure RangeRule where
  ge : Option Int
  gt : Option Int
  le : Option Int
  lt : Option Int
  deriving DecidableEq, Repr

/-- Embeds `RangeRule.check` (rules.py lines 261 to 268): the source builds the
list `[(gt, >), (ge, >=), (lt, <), (le, <=)]` and takes `all(func(value, c))`
over the entries whose bound `is not None`. -/
def RangeRule.check (r : RangeRule) (v : Int) : Bool :=
  let constraints : List (Option Int × (Int → Int → Bool)) :=
    [(r.gt, fun a c => decide (a > c)),
     (r.ge, fun a c => decide (a ≥ c)),
     (r.lt, fun a c => decide (a < c)),
     (r.le, fun a c => decide (a ≤ c))]
  constraints.all (fun p =>
    match p.1 with
    | Option.none => true
    | Option.some c => p.2 v c)

/-- Single-value rules attachable to a `Param`.  The claims exercise the type
rule and the range rule; the remaining variants of the source hierarchy
(pattern, option, custom) are not needed by any claim and are omitted. -/
inductive SingleValueRule where
  | typeRule (expected : List PyType)
  | rangeRule (r : RangeRule)
  deriving DecidableEq, Repr

/-- Embeds `rule.__class__.__name__`, recorded by the validation report. -/
def SingleValueRule.className : SingleValueRule → String
  | .typeRule _ => "TypeRule"
  | .rangeRule _ => "RangeRule"

/-- Embeds `check` for the embedded single-value rules.  `TypeRule.check` is
`isinstance(value, self.expected_type)` (rules.py line 222, tuple of types is
an OR).  `RangeRule.check` compares the value with the bounds; in Python a
comparison between a non-number and an int raises `TypeError`, which the
`Except` result records. -/
def SingleValueRule.checkE (r : SingleValueRule) (v : PyVal) : Except PyExc Bool :=
  match r with
  | .typeRule expected => .ok (expected.any (fun t => v.isinstanceOf t))
  | .rangeRule rr =>
    match v with
    | .int n => .ok (rr.check n)
    | .bool b => .ok (rr.check (if b then 1 else 0))
    | _ => .error (.typeError "unsupported comparison")

-- == Param (src/tessara/core/parameters.py, class Param) ==

/-- Embeds the attribute state of a constructed `Param`: `value` (set at
runtime, initialised to Python `None`), `default`, and the ordered rule
list. -/
structure Param where
  value : PyVal
  default : PyVal
  rules : List SingleValueRule
  deriving DecidableEq, Repr

/-- Embeds `Param.__init__` (parameters.py lines 116 to 123).  The body sets
`self.value = None`, `self.default = default`, and then runs
`self.rules = [self.register_rule(rule) for rule in rules] if rules else []`.
The list comprehension is evaluated before the assignment, and
`register_rule` executes `self.rules.append(rule)`; at that point the
instance has no attribute `rules`, so CPython raises
`AttributeError: Param object has no attribute rules` for every non-empty
`rules` argument.  (Were the attribute present, the comprehension would
collect the `None` results of `register_rule` instead of the rules.)
An absent or empty `rules` argument is falsy, so that path assigns `[]`
and succeeds. -/
def Param.init (default : PyVal) (rules : Option (List SingleValueRule)) :
    Except PyExc Param :=
  match rules with
  | Option.none => .ok ⟨PyVal.none, default, []⟩
  | Option.some rs =>
    if rs.isEmpty then .ok ⟨PyVal.none, default, []⟩
    else .error (.attributeError "rules")

/-- Embeds `Param.set` (parameters.py lines 125 to 127): assigns `self.value`
and, like every Python method without a return statement, returns `None`.
The pair keeps both effects: the mutated object and the returned value. -/
def Param.pySet (p : Param) (v : PyVal) : Param × PyVal :=
  ({ p with value := v }, PyVal.none)

/-- Embeds `Param.get` (parameters.py lines 129 to 131): returns `self.value`,
with no fallback to `self.default`. -/
def Param.get (p : Param) : PyVal :=
  p.value

/-- Embeds `Param.register_rule` called on a fully constructed object
(parameters.py lines 133 to 137): appends the rule to `self.rules`.  The
`isinstance(rule, SingleValueRule)` guard always passes in the embedding,
where every rule value is a `SingleValueRule`. -/
def Param.register_rule (p : Param) (r : SingleValueRule) : Param :=
  { p with rules := p.rules ++ [r] }

/-- Embeds `Param.copy` (parameters.py lines 139 to 141): `deepcopy` produces
an object with equal attribute values; in the pure model the state is the
record itself. -/
def Param.copy (p : Param) : Param := p

-- == ParamGrid (src/tessara/core/parameters.py, class ParamGrid) ==

/-- Embeds the attribute state of `ParamGrid` (parameters.py lines 501 to
505): the template `Param` and the list of sweep values. -/
structure ParamGrid where
  param : Param
  sweep_values : List PyVal
  deriving DecidableEq, Repr

/-- Embeds `ParamGrid.generate_params` (parameters.py lines 511 to 521): the
body is `[self.param.copy().set(value) for value in self.sweep_values]`.
Each element of the comprehension is the value RETURNED by `Param.set`,
which is `None`; the freshly copied `Param` is discarded.  The method
therefore returns a list of `None`, one per sweep value. -/
def ParamGrid.generate_params (g : ParamGrid) : List PyVal :=
  g.sweep_values.map (fun v => (Param.pySet (Param.copy g.param) v).2)

-- == Relation rules (rules.py class MultiValueRule, validator.py targets) ==

/-- Embeds `MultiValueRule` (rules.py lines 378 to 422), whose attribute is an
arbitrary user predicate.  A Python callable is modelled by the ordered list
of its formal parameter names together with the boolean body applied to the
argument values in formal order: this is exactly what keyword invocation
needs to be defined. -/
structure MultiValueRule where
  formals : List String
  pred : List PyVal → Bool

/-- Embeds the target specification of a relation rule (the `Targets` type
alias of parameters.py line 146 and the two argument modes of `Checker`,
validator.py lines 149 to 161): an ordered list of parameter names
(positional binding) or a mapping from parameter name to the formal argument
name of the predicate (keyword binding). -/
inductive CheckTargets where
  | args (names : List String)
  | kwargs (pairs : List (String × String))

-- == Python dictionary semantics ==

namespace PyDict

variable {β : Type}

/-- Embeds `name in d` for a Python dictionary modelled as an ordered
association list with unique keys. -/
def hasKey (d : List (String × β)) (name : String) : Bool :=
  d.any (fun kv => kv.1 == name)

/-- Embeds `d[name]` lookup: the first (in a dictionary, only) binding. -/
def find? (d : List (String × β)) (name : String) : Option β :=
  (d.find? (fun kv => kv.1 == name)).map Prod.snd

/-- Embeds the Python dictionary assignment `d[name] = v`: an existing key
keeps its position and gets the new value, a new key is appended.  (On the
unique-key lists a dictionary can hold, replacing the first binding is the
same as replacing the binding.) -/
def set (d : List (String × β)) (name : String) (v : β) : List (String × β) :=
  match d with
  | [] => [(name, v)]
  | kv :: rest => if kv.1 == name then (name, v) :: rest else kv :: set rest name v

/-- Embeds the loop of `ParamComposer.merge` over `other.data.items()`
(param_interface.py lines 348 to 350): starting from the copied `dst` data,
each binding of `src` is written into the accumulator when its name is not
yet a key or `override` is set. -/
def mergeData (dst src : List (String × β)) (override : Bool) : List (String × β) :=
  src.foldl
    (fun acc kv => if !(hasKey acc kv.1) || override then set acc kv.1 kv.2 else acc)
    dst

end PyDict

-- == ParameterSet (src/tessara/core/parameters.py, class ParameterSet) ==

/-- Entries stored in `ParameterSet.data`.  The claims exercise `Param` and
`ParamGrid` entries; nested parameter sets are not needed by any claim and
are omitted from the entry type. -/
inductive Entry where
  | param (p : Param)
  | grid (g : ParamGrid)
  deriving DecidableEq, Repr

/-- Embeds the attribute state of `ParameterSet`: the insertion-ordered
mapping `data` (`UserDict.data`) and the list `relation_rules` set up by
`__init__` (parameters.py lines 214 to 267), each element a rule paired with
its target specification. -/
structure ParameterSet where
  data : List (String × Entry)
  relation_rules : List (MultiValueRule × CheckTargets)

/-- Keys of the underlying dictionary, in insertion order. -/
def ParameterSet.keys (s : ParameterSet) : List String :=
  s.data.map Prod.fst

/-- Embeds `name in self.data` (dictionary membership). -/
def ParameterSet.hasKey (s : ParameterSet) (name : String) : Bool :=
  PyDict.hasKey s.data name

/-- Embeds `self.data[name]` read: first binding for the key. -/
def ParameterSet.find? (s : ParameterSet) (name : String) : Option Entry :=
  PyDict.find? s.data name

/-- Arguments accepted by `ParameterSet.add`: a `Param` instance or a bare
value (which `add` wraps into `Param(default=value)`). -/
inductive AddArg where
  | ofParam (p : Param)
  | ofVal (v : PyVal)
  deriving DecidableEq, Repr

/-- Embeds `ParameterSet.add` (parameters.py lines 269 to 287): raises
`OverrideParameterError` when the name is already a key of `self.data`;
otherwise stores the `Param` unchanged, or wraps a bare value into
`Param(default=value)` (that constructor call passes no rules, so it
succeeds with `value=None` and an empty rule list). -/
def ParameterSet.add (s : ParameterSet) (name : String) (arg : AddArg) :
    Except PyExc ParameterSet :=
  if s.hasKey name then
    .error (.overrideParameterError name)
  else
    match arg with
    | .ofParam p => .ok ⟨s.data ++ [(name, Entry.param p)], s.relation_rules⟩
    | .ofVal v => .ok ⟨s.data ++ [(name, Entry.param ⟨PyVal.none, v, []⟩)], s.relation_rules⟩

/-- Embeds `ParameterSet.__setitem__` (parameters.py lines 293 to 299): the
statement `params[name] = value` delegates directly to `self.add(name,
value)`. -/
def ParameterSet.setItem (s : ParameterSet) (name : String) (arg : AddArg) :
    Except PyExc ParameterSet :=
  s.add name arg

/-- Embeds `self[name]` (`UserDict.__getitem__`): raises `KeyError` when the
name is absent. -/
def ParameterSet.getItem (s : ParameterSet) (name : String) : Except PyExc Entry :=
  match s.find? name with
  | Option.some e => .ok e
  | Option.none => .error (.keyError name)

/-- Embeds `ParameterSet.get` (parameters.py lines 378 to 380): the body is
`return self[name].get()`.  Reading the attribute `get` on a `ParamGrid`
entry would raise `AttributeError` (the class defines no such method). -/
def ParameterSet.getValue (s : ParameterSet) (name : String) : Except PyExc PyVal :=
  match s.getItem name with
  | .ok (Entry.param p) => .ok p.get
  | .ok (Entry.grid _) => .error (.attributeError "get")
  | .error e => .error e

/-- Embeds `ParameterSet.copy` (parameters.py lines 458 to 460): a deep copy
has equal attribute values; in the pure model it is the value itself.  (The
heap model further below accounts for the aliasing that `deepcopy`
removes.) -/
def ParameterSet.copy (s : ParameterSet) : ParameterSet := s

-- == Composer (src/tessara/handling/param_interface.py, class ParamComposer) ==

/-- Embeds the attribute state of `ParamComposer` (param_interface.py lines
243 to 269): the named parameter sets `self.params` and the precedence list
`self.precedence`. -/
structure ParamComposer where
  params : List (String × ParameterSet)
  precedence : List String

/-- Embeds `ParamComposer.__init__` for keyword-named sets (param_interface.py
lines 263 to 269): `self.params` holds the named sets and the default
precedence is their insertion order, `list(self.params.keys())`. -/
def ParamComposer.ofNamed (named : List (String × ParameterSet)) : ParamComposer :=
  ⟨named, named.map Prod.fst⟩

/-- Embeds `ParamComposer.merge` (param_interface.py lines 294 to 353):
`merged = original.copy()`; then for every `(name, param)` of `other.data`,
execute `merged.data[name] = param` when `name not in merged.data or
override`; finally append every relation rule of `other` to
`merged.relation_rules`. -/
def ParamComposer.merge (original other : ParameterSet) (override : Bool) :
    ParameterSet :=
  let merged := original.copy
  { data := PyDict.mergeData merged.data other.data override
    relation_rules := merged.relation_rules ++ other.relation_rules }

/-- Embeds the lookup `self.params[name]` inside `compose`; the claims only
use precedence names that are present (an absent name would raise
`KeyError`). -/
def ParamComposer.getSet (c : ParamComposer) (name : String) : ParameterSet :=
  (PyDict.find? c.params name).getD ⟨[], []⟩

/-- Embeds `ParamComposer.compose` (param_interface.py lines 355 to 389):
starting from `ParameterSet()`, fold the precedence list left to right,
merging each named set into the accumulator with `override=True`. -/
def ParamComposer.compose (c : ParamComposer) : ParameterSet :=
  c.precedence.foldl
    (fun composed name => ParamComposer.merge composed (c.getSet name) true)
    ⟨[], []⟩

-- == Validation errors (src/tessara/errors/validation.py) ==

/-- Embeds the validation errors produced by the single-value rules of the
embedding (errors/validation.py): each carries the offending value and the
constraint. -/
inductive VError where
  | typeValidation (value : PyVal) (expected : List PyType)
  | rangeValidation (value : PyVal) (r : RangeRule)
  deriving DecidableEq, Repr

/-- Embeds `Rule.get_error` (rules.py lines 142 to 146) for a single-value
rule: `None` when `check` passes, `create_error(value)` otherwise; an
exception escaping `check` propagates. -/
def SingleValueRule.get_error (r : SingleValueRule) (v : PyVal) :
    Except PyExc (Option VError) :=
  match r.checkE v with
  | .error e => .error e
  | .ok true => .ok Option.none
  | .ok false =>
    match r with
    | .typeRule expected => .ok (Option.some (VError.typeValidation v expected))
    | .rangeRule rr => .ok (Option.some (VError.rangeValidation v rr))

-- == Relational rule invocation (rules.py MultiValueRule, errors) ==

/-- Embeds the CPython call `func(*args)` for a predicate modelled by its
formal parameter list: the arity must match, otherwise the call raises
`TypeError`. -/
def MultiValueRule.callArgs (r : MultiValueRule) (args : List PyVal) :
    Except PyExc Bool :=
  if args.length == r.formals.length then .ok (r.pred args)
  else .error (.typeError "positional argument count")

/-- Embeds the CPython call `func(**kwargs)`: a keyword that does not name a
formal parameter raises `TypeError` (unexpected keyword argument), as does a
formal left unbound (missing required argument); otherwise the body receives
the keyword values in formal order.  (A Python keyword dictionary cannot
repeat a key, so each formal is bound at most once.) -/
def MultiValueRule.callKwargs (r : MultiValueRule) (kwargs : List (String × PyVal)) :
    Except PyExc Bool :=
  match kwargs.find? (fun kv => !(r.formals.contains kv.1)) with
  | Option.some kv => .error (.typeError kv.1)
  | Option.none =>
    match r.formals.find? (fun f => !(PyDict.hasKey kwargs f)) with
    | Option.some f => .error (.typeError f)
    | Option.none =>
      .ok (r.pred (r.formals.map (fun f => (PyDict.find? kwargs f).getD PyVal.none)))

/-- Embeds `Rule.get_error` for a relational rule invoked positionally.  When
the predicate returns False, `create_error` constructs a
`RelationValidationError`, whose `format_message` (errors/validation.py
lines 239 to 246) reads the local name `bound_args` that is never assigned;
the resulting `NameError` is not in the caught tuple `(TypeError,
ValueError, AttributeError)`, so constructing the error object itself
raises. -/
def MultiValueRule.get_error_args (r : MultiValueRule) (args : List PyVal) :
    Except PyExc (Option VError) :=
  match r.callArgs args with
  | .error e => .error e
  | .ok true => .ok Option.none
  | .ok false => .error (.nameError "bound_args")

/-- Embeds `Rule.get_error` for a relational rule invoked by keyword; the
failing branch raises `NameError` exactly as in `get_error_args`. -/
def MultiValueRule.get_error_kwargs (r : MultiValueRule)
    (kwargs : List (String × PyVal)) : Except PyExc (Option VError) :=
  match r.callKwargs kwargs with
  | .error e => .error e
  | .ok true => .ok Option.none
  | .ok false => .error (.nameError "bound_args")

-- == Checker and Validator (src/tessara/validation/validator.py) ==

/-- Embeds the rule attribute of a `Checker`: a parameter-specific rule or a
relational rule. -/
inductive RuleRef where
  | single (r : SingleValueRule)
  | multi (r : MultiValueRule)

/-- Embeds the attribute state of `Checker` after `__init__` (validator.py
lines 152 to 161): the rule and the normalised targets; the argument mode is
determined by the shape of the targets (a Mapping selects kwargs mode, any
other iterable selects args mode), which the `CheckTargets` constructor
records. -/
structure Checker where
  rule : RuleRef
  targets : CheckTargets

/-- Bound values produced by `Checker.bind_targets`: a list in args mode, a
dictionary in kwargs mode. -/
inductive BoundValues where
  | args (vals : List PyVal)
  | kwargs (vals : List (String × PyVal))
  deriving DecidableEq, Repr

/-- Embeds the attribute read `params[name].value` used by `bind_targets`:
`KeyError` when the name is absent, `AttributeError` when the entry is a
`ParamGrid` (that class stores no `value`). -/
def ParameterSet.valueAttr (s : ParameterSet) (name : String) : Except PyExc PyVal :=
  match s.getItem name with
  | .ok (Entry.param p) => .ok p.value
  | .ok (Entry.grid _) => .error (.attributeError "value")
  | .error e => .error e

/-- Embeds `Checker.bind_targets` (validator.py lines 163 to 183).  In args
mode the result is `[params[name].value for name in self.targets]`.  In
kwargs mode the source comprehension is
`{name: params[name].value for name in self.targets}`: iterating a Python
dictionary yields its KEYS, so each produced keyword is a key of the target
mapping (a parameter name) bound to the value of that parameter; the VALUES
of the mapping (the formal argument names) are never read. -/
def Checker.bind_targets (c : Checker) (params : ParameterSet) :
    Except PyExc BoundValues :=
  match c.targets with
  | .args names =>
    match names.mapM (fun nm => params.valueAttr nm) with
    | .ok vs => .ok (BoundValues.args vs)
    | .error e => .error e
  | .kwargs pairs =>
    match pairs.mapM (fun kv =>
        match params.valueAttr kv.1 with
        | .ok v => Except.ok (kv.1, v)
        | .error e => Except.error (e : PyExc)) with
    | .ok vs => .ok (BoundValues.kwargs vs)
    | .error e => .error e

/-- Embeds `Checker.check` (validator.py lines 185 to 208): bind the target
values, then call `self.rule.get_error(*values)` in args mode or
`self.rule.get_error(**values)` in kwargs mode.  A single-value rule invoked
with several positional values or with any keyword raises `TypeError` (the
signature `check(self, value)` accepts exactly one positional argument). -/
def Checker.checkRun (c : Checker) (params : ParameterSet) :
    Except PyExc (Option VError) :=
  match c.bind_targets params with
  | .error e => .error e
  | .ok (BoundValues.args [v]) =>
    match c.rule with
    | RuleRef.single r => r.get_error v
    | RuleRef.multi r => r.get_error_args [v]
  | .ok (BoundValues.args vs) =>
    match c.rule with
    | RuleRef.single _ => .error (.typeError "positional argument count")
    | RuleRef.multi r => r.get_error_args vs
  | .ok (BoundValues.kwargs kvs) =>
    match c.rule with
    | RuleRef.single _ => .error (.typeError "unexpected keyword argument")
    | RuleRef.multi r => r.get_error_kwargs kvs

/-- Embeds the attribute state of `Validator` (validator.py lines 255 to
259): the parameter set and the strict flag. -/
structure Validator where
  params : ParameterSet
  strict : Bool

/-- Embeds `Validator.init_checks` (validator.py lines 261 to 281): one
`Checker` per rule of each `Param` of the set, targeted at the one-element
positional list `[name]`, followed by one `Checker` per relation rule of the
set.  Iterating over a `ParamGrid` entry would read the attribute `rules`,
which that class does not define, raising `AttributeError`. -/
def Validator.init_checks (v : Validator) : Except PyExc (List Checker) :=
  match v.params.data.foldlM (fun acc kv =>
      match kv.2 with
      | Entry.param p =>
        Except.ok (acc ++ p.rules.map
          (fun r => Checker.mk (RuleRef.single r) (CheckTargets.args [kv.1])))
      | Entry.grid _ => Except.error (PyExc.attributeError "rules"))
      ([] : List Checker) with
  | .error e => .error e
  | .ok paramChecks =>
    .ok (paramChecks ++ v.params.relation_rules.map
      (fun rt => Checker.mk (RuleRef.multi rt.1) rt.2))

/-- Embeds `Validator.validate` (validator.py lines 307 to 350) with the
default filters (`include_only=None`, `exclude=None`).  The body clears the
recorder and executes `self.checks = self.init_checks()` (an exception from
`init_checks` propagates); the loop header `for chk in checks` then reads
the LOCAL variable `checks`.  Because the filter branch contains the
assignment `checks = self.filter(checks, ...)`, CPython compiles `checks` as
a local of `validate`; on the no-filter path it is never assigned (and on
the filter path it is read as an argument of `self.filter` before its own
assignment).  Every call therefore raises `UnboundLocalError` before any
check is executed, regardless of `strict`; the loop body, the report, and
the strict-mode `GlobalValidationError` are unreachable.  (The loop body is
itself broken: it calls `self.check(rule, values)`, a method `Validator`
does not define.) -/
def Validator.validate (v : Validator) : Except PyExc Bool :=
  match v.init_checks with
  | .error e => .error e
  | .ok _ => .error (.unboundLocalError "checks")

-- == Sweep generator (src/tessara/handling/param_interface.py, ParamSweeper) ==

/-- Embeds `itertools.product(*params)`: all combinations in lexicographic
order, the last dimension varying fastest. -/
def pyProduct {α : Type} : List (List α) → List (List α)
  | [] => [[]]
  | l :: ls => l.flatMap (fun x => (pyProduct ls).map (fun c => x :: c))

/-- Embeds `ParamSweeper.generate_sweep_grid` (param_interface.py lines 417
to 445), read as a method of the parameter set it iterates (the class
defines neither `items` nor `copy`, so `self` must be the set itself for the
method to run at all).  The sweep entries are the `ParamGrid` values of
`self.items()` in insertion order; each is expanded by
`ParamGrid.generate_params`, which returns one `None` per sweep value (the
return value of `Param.set`).  With no sweep entries the result is
`[self.copy()]`.  Otherwise, for every combination of the cartesian product
the loop runs `new_set[k] = p` on a copy of the set, and `__setitem__`
delegates to `add`. -/
def ParameterSet.generate_sweep_grid (s : ParameterSet) :
    Except PyExc (List ParameterSet) :=
  let sweep_params := s.data.filterMap (fun kv =>
    match kv.2 with
    | Entry.grid g => Option.some (kv.1, g.generate_params)
    | _ => Option.none)
  if sweep_params.isEmpty then
    .ok [s.copy]
  else
    let names := sweep_params.map Prod.fst
    let valueLists := sweep_params.map Prod.snd
    (pyProduct valueLists).mapM (fun combination =>
      (names.zip combination).foldlM
        (fun new_set kp => new_set.setItem kp.1 (AddArg.ofVal kp.2))
        s.copy)

-- == Heap model of object identity ==

/-- Heap of `Param` objects.  The pure model above identifies objects with
their attribute values; `deepcopy` and runtime mutation, which claims about
shared mutable state talk about, act on object identities instead, modelled
here as indices into a heap of `Param` cells. -/
structure Heap where
  cells : List Param

/-- Read the object stored at an address. -/
def Heap.read (h : Heap) (a : Nat) : Param :=
  (h.cells[a]?).getD ⟨PyVal.none, PyVal.none, []⟩

/-- Overwrite the object stored at an address (an attribute assignment on
the object at that address). -/
def Heap.write (h : Heap) (a : Nat) (p : Param) : Heap :=
  ⟨h.cells.set a p⟩

/-- A parameter set as it exists at runtime: names bound to the identities
of `Param` objects. -/
structure RefSet where
  data : List (String × Nat)

/-- Object identities referenced by a set. -/
def RefSet.addrs (s : RefSet) : List Nat :=
  s.data.map Prod.snd

/-- Embeds `ParameterSet.copy` (a `deepcopy`) in the heap model: every entry
receives a fresh object, appended to the heap, holding a `Param` equal to
the original one. -/
def RefSet.deepcopy (h : Heap) (s : RefSet) : Heap × RefSet :=
  (⟨h.cells ++ s.data.map (fun kv => h.read kv.2)⟩,
   ⟨s.data.enum.map (fun ikv => (ikv.2.1, h.cells.length + ikv.1))⟩)

/-- Embeds `ParamComposer.merge` in the heap model: `merged =
original.copy()` allocates fresh objects for the entries of `original`,
after which the loop executes `merged.data[name] = param` with the `Param`
OBJECTS of `other`: the references are transferred, not copied. -/
def RefSet.merge (h : Heap) (original other : RefSet) (override : Bool) :
    Heap × RefSet :=
  let hc := RefSet.deepcopy h original
  (hc.1, ⟨PyDict.mergeData hc.2.data other.data override⟩)

/-- Embeds the runtime mutation `params[name].set(v)` (equivalently
`params[name].value = v`) through a set: assign the `value` attribute of the
referenced object. -/
def RefSet.setValue (h : Heap) (s : RefSet) (name : String) (v : PyVal) : Heap :=
  match PyDict.find? s.data name with
  | Option.some a => h.write a { h.read a with value := v }
  | Option.none => h

/-- Embeds the read `params[name].value` through a set in the heap model. -/
def RefSet.readValue (h : Heap) (s : RefSet) (name : String) : PyVal :=
  match PyDict.find? s.data name with
  | Option.some a => (h.read a).value
  | Option.none => PyVal.none

-- ==== Claims about the data model ====

/-- Claim C3: for every default value d and every non-empty list rs of
single-value rules, `Param(default=d, rules=rs)` is claimed to construct
successfully with `default = d` and `rules = rs` in order.  The constructor
in fact raises `AttributeError` for every non-empty rs, because the list
comprehension calls `register_rule`, which appends to `self.rules` before
that attribute has been assigned.  This theorem evaluates the embedded
constructor at the failing input of the docstring example,
`Param(default=5, rules=[TypeRule(int)])`, and also records that the
rule-free constructor succeeds (so the failure is specific to the rules
argument). -/
theorem param_init_with_rules_raises :
    Param.init (PyVal.int 5) (Option.some [SingleValueRule.typeRule [PyType.int]])
      = Except.error (PyExc.attributeError "rules")
    ∧ Param.init (PyVal.int 5) Option.none
      = Except.ok ⟨PyVal.none, PyVal.int 5, []⟩ := by
  constructor <;> rfl

/-- Claim C7: for every range rule, `check(v)` holds iff the conjunction of
exactly the comparisons whose bound is provided holds, and with zero bounds
provided `check(v)` is true for every v. -/
theorem rangeRule_check_iff_conj (r : RangeRule) (v : Int) :
    (r.check v = true ↔
      ((∀ c, r.gt = Option.some c → v > c)
        ∧ (∀ c, r.ge = Option.some c → v ≥ c)
        ∧ (∀ c, r.lt = Option.some c → v < c)
        ∧ (∀ c, r.le = Option.some c → v ≤ c)))
    ∧ (r.ge = Option.none → r.gt = Option.none → r.le = Option.none →
        r.lt = Option.none → r.check v = true) := by
  obtain ⟨ge, gt, le, lt⟩ := r
  cases ge <;> cases gt <;> cases le <;> cases lt <;>
    simp [RangeRule.check] <;> omega

/-- Witness for C7: the rule `RangeRule(gt=0, le=10)` accepts 5, via the
conjunction characterisation. -/
theorem rangeRule_check_iff_conj_witness :
    RangeRule.check ⟨Option.none, Option.some 0, Option.some 10, Option.none⟩ 5 = true :=
  ((rangeRule_check_iff_conj ⟨Option.none, Option.some 0, Option.some 10, Option.none⟩ 5).1).mpr
    (by
      refine ⟨fun c hc => ?_, fun c hc => ?_, fun c hc => ?_, fun c hc => ?_⟩
      · injection hc with h
        omega
      · exact absurd hc (by simp)
      · exact absurd hc (by simp)
      · injection hc with h
        omega)

/-- Claim C9: a `Param` constructed with a non-None default and never given a
runtime value reads back `None` from `get()`, not the default, and
`ParameterSet.get(name)` on such a parameter likewise returns `None`: no
read operation falls back to the default. -/
theorem param_get_never_falls_back_to_default (d : PyVal) (name : String)
    (hd : d ≠ PyVal.none) :
    ∃ p s, Param.init d Option.none = Except.ok p
      ∧ p.get = PyVal.none ∧ p.get ≠ d
      ∧ ParameterSet.add ⟨[], []⟩ name (AddArg.ofParam p) = Except.ok s
      ∧ s.getValue name = Except.ok PyVal.none := by
  refine ⟨⟨PyVal.none, d, []⟩, ⟨[(name, Entry.param ⟨PyVal.none, d, []⟩)], []⟩,
    rfl, rfl, ?_, rfl, ?_⟩
  · exact fun h => hd h.symm
  · simp [ParameterSet.getValue, ParameterSet.getItem, ParameterSet.find?,
      PyDict.find?, Param.get]

/-- Witness for C9: instantiated at default 42 and name p. -/
theorem param_get_never_falls_back_to_default_witness :
    ∃ p s, Param.init (PyVal.int 42) Option.none = Except.ok p
      ∧ p.get = PyVal.none ∧ p.get ≠ PyVal.int 42
      ∧ ParameterSet.add ⟨[], []⟩ "p" (AddArg.ofParam p) = Except.ok s
      ∧ s.getValue "p" = Except.ok PyVal.none :=
  param_get_never_falls_back_to_default (PyVal.int 42) "p" (by decide)

/-- Claim C10: for every parameter set s and name already present in s, the
item assignment `s[name] = v` raises `OverrideParameterError` for every v
(bare value or Param), producing no updated set; when the name is absent the
assignment adds a new parameter bound to that name. -/
theorem setItem_never_updates_existing (s : ParameterSet) (name : String) (arg : AddArg) :
    (s.hasKey name = true →
      s.setItem name arg = Except.error (PyExc.overrideParameterError name))
    ∧ (s.hasKey name = false →
      ∃ t, s.setItem name arg = Except.ok t ∧ t.hasKey name = true) := by
  constructor
  · intro h
    simp [ParameterSet.setItem, ParameterSet.add, h]
  · intro h
    cases arg with
    | ofParam p =>
      refine ⟨⟨s.data ++ [(name, Entry.param p)], s.relation_rules⟩, ?_, ?_⟩
      · simp [ParameterSet.setItem, ParameterSet.add, h]
      · simp [ParameterSet.hasKey, PyDict.hasKey]
    | ofVal v =>
      refine ⟨⟨s.data ++ [(name, Entry.param ⟨PyVal.none, v, []⟩)], s.relation_rules⟩, ?_, ?_⟩
      · simp [ParameterSet.setItem, ParameterSet.add, h]
      · simp [ParameterSet.hasKey, PyDict.hasKey]

/-- Witness for C10: on the one-element set containing x, assigning to x
errors and assigning to y succeeds. -/
theorem setItem_never_updates_existing_witness :
    (ParameterSet.setItem ⟨[("x", Entry.param ⟨PyVal.none, PyVal.int 1, []⟩)], []⟩ "x"
        (AddArg.ofVal (PyVal.int 2))
      = Except.error (PyExc.overrideParameterError "x"))
    ∧ ∃ t, ParameterSet.setItem ⟨[("x", Entry.param ⟨PyVal.none, PyVal.int 1, []⟩)], []⟩ "y"
        (AddArg.ofVal (PyVal.int 2)) = Except.ok t ∧ t.hasKey "y" = true := by
  constructor
  · exact (setItem_never_updates_existing
      ⟨[("x", Entry.param ⟨PyVal.none, PyVal.int 1, []⟩)], []⟩
      "x" (AddArg.ofVal (PyVal.int 2))).1 (by decide)
  · exact (setItem_never_updates_existing
      ⟨[("x", Entry.param ⟨PyVal.none, PyVal.int 1, []⟩)], []⟩
      "y" (AddArg.ofVal (PyVal.int 2))).2 (by decide)

-- ==== Dictionary lemmas ====

namespace PyDict

variable {β : Type}

theorem hasKey_iff_mem (d : List (String × β)) (n : String) :
    hasKey d n = true ↔ n ∈ d.map Prod.fst := by
  simp [hasKey, List.any_eq_true, List.mem_map]

theorem hasKey_cons (kv : String × β) (d : List (String × β)) (n : String) :
    hasKey (kv :: d) n = (kv.1 == n || hasKey d n) := by
  simp [hasKey]

theorem find?_cons (kv : String × β) (d : List (String × β)) (n : String) :
    find? (kv :: d) n = if kv.1 == n then Option.some kv.2 else find? d n := by
  cases h : kv.1 == n <;> simp [find?, List.find?, h]

theorem find?_set_self (d : List (String × β)) (n : String) (v : β) :
    find? (set d n v) n = Option.some v := by
  induction d with
  | nil => simp [set, find?_cons]
  | cons kv rest ih =>
    cases h : kv.1 == n with
    | true => simp [set, h, find?_cons]
    | false => simp [set, h, find?_cons, ih]

theorem find?_set_ne (d : List (String × β)) (n m : String) (v : β)
    (h : (n == m) = false) :
    find? (set d n v) m = find? d m := by
  induction d with
  | nil => simp [set, find?_cons, h]
  | cons kv rest ih =>
    cases hkv : kv.1 == n with
    | true =>
      have hk : kv.1 = n := by simpa using hkv
      simp [set, hkv, find?_cons, h, hk]
    | false => simp [set, hkv, find?_cons, ih]

theorem hasKey_set (d : List (String × β)) (n m : String) (v : β) :
    hasKey (set d n v) m = (hasKey d m || (n == m)) := by
  induction d with
  | nil => simp [set, hasKey_cons, hasKey]
  | cons kv rest ih =>
    cases hkv : kv.1 == n with
    | true =>
      have hk : kv.1 = n := by simpa using hkv
      simp only [set, hkv, if_true, hasKey_cons, hk]
      cases hq : n == m <;> cases hr : hasKey rest m <;>
        simp [hasKey_cons, hq, hr]
    | false =>
      simp only [set, hkv, if_false, Bool.false_eq_true, hasKey_cons, ih]
      cases hp : kv.1 == m <;> cases hq : n == m <;> cases hr : hasKey rest m <;>
        simp [hasKey_cons, ih, hp, hq, hr]

theorem find?_mergeData_not_src (src : List (String × β)) (dst : List (String × β))
    (b : Bool) (n : String) (h : hasKey src n = false) :
    find? (mergeData dst src b) n = find? dst n := by
  induction src generalizing dst with
  | nil => rfl
  | cons kv rest ih =>
    rw [hasKey_cons] at h
    have h1 : (kv.1 == n) = false := by
      cases hk : kv.1 == n
      · rfl
      · rw [hk] at h; simp at h
    have h2 : hasKey rest n = false := by
      cases hk : hasKey rest n
      · rfl
      · rw [hk] at h; simp at h
    show find? (mergeData (if !(hasKey dst kv.1) || b then set dst kv.1 kv.2 else dst)
      rest b) n = find? dst n
    rw [ih _ h2]
    cases hc : !(hasKey dst kv.1) || b with
    | true => simpa using find?_set_ne dst kv.1 n kv.2 h1
    | false => simp

theorem find?_mergeData_false (src : List (String × β)) (dst : List (String × β))
    (n : String) (h : hasKey dst n = true) :
    find? (mergeData dst src false) n = find? dst n := by
  induction src generalizing dst with
  | nil => rfl
  | cons kv rest ih =>
    show find? (mergeData (if !(hasKey dst kv.1) || false then set dst kv.1 kv.2 else dst)
      rest false) n = find? dst n
    cases hk : hasKey dst kv.1 with
    | true => simpa [hk] using ih dst h
    | false =>
      have hne : (kv.1 == n) = false := by
        cases hkn : kv.1 == n
        · rfl
        · have : kv.1 = n := by simpa using hkn
          rw [this] at hk
          rw [hk] at h
          exact absurd h (by simp)
      have hkey : hasKey (set dst kv.1 kv.2) n = true := by
        rw [hasKey_set, h]
        simp
      simp only [hk, Bool.not_false, Bool.or_false, if_true]
      rw [ih _ hkey]
      exact find?_set_ne dst kv.1 n kv.2 hne

theorem find?_mergeData_true (src : List (String × β)) (dst : List (String × β))
    (n : String) (hnd : (src.map Prod.fst).Nodup) (h : hasKey src n = true) :
    find? (mergeData dst src true) n = find? src n := by
  induction src generalizing dst with
  | nil => simp [hasKey] at h
  | cons kv rest ih =>
    rw [List.map_cons, List.nodup_cons] at hnd
    show find? (mergeData (if !(hasKey dst kv.1) || true then set dst kv.1 kv.2 else dst)
      rest true) n = find? (kv :: rest) n
    simp only [Bool.or_true, if_true]
    cases hkv : kv.1 == n with
    | true =>
      have hk : kv.1 = n := by simpa using hkv
      have hrest : hasKey rest n = false := by
        cases hr : hasKey rest n
        · rfl
        · exact absurd (hk ▸ (hasKey_iff_mem rest n).mp hr) hnd.1
      rw [find?_mergeData_not_src rest _ true n hrest, hk,
        find?_set_self, find?_cons, hkv]
      simp
    | false =>
      have hrest : hasKey rest n = true := by
        rw [hasKey_cons, hkv] at h
        simpa using h
      rw [ih _ hnd.2 hrest, find?_cons, hkv]
      simp

end PyDict

-- ==== Claims about the composer ====

/-- Claim C5: for every pair of parameter sets dst and src,
`merge(dst, src, override=False)` never changes a binding already present in
dst; `merge(dst, src, override=True)` takes the binding of src for every
name present in src (in particular for every name present in both); and for
either override flag the relation rules of the result are exactly the
relation rules of dst followed by those of src, so their count is the sum
of the two counts (2 from dst and 1 from src give 3).  The override=True
conjunct assumes what Python dictionaries guarantee, that the keys of src
are distinct. -/
theorem merge_override_semantics_and_rule_accumulation
    (dst src : ParameterSet) (n : String) :
    (PyDict.hasKey dst.data n = true →
      PyDict.find? (ParamComposer.merge dst src false).data n
        = PyDict.find? dst.data n)
    ∧ ((src.data.map Prod.fst).Nodup → PyDict.hasKey src.data n = true →
      PyDict.find? (ParamComposer.merge dst src true).data n
        = PyDict.find? src.data n)
    ∧ (∀ override,
      (ParamComposer.merge dst src override).relation_rules
          = dst.relation_rules ++ src.relation_rules
        ∧ (ParamComposer.merge dst src override).relation_rules.length
          = dst.relation_rules.length + src.relation_rules.length) := by
  refine ⟨?_, ?_, ?_⟩
  · intro h
    exact PyDict.find?_mergeData_false src.data dst.data n h
  · intro hnd h
    exact PyDict.find?_mergeData_true src.data dst.data n hnd h
  · intro override
    exact ⟨rfl, by simp [ParamComposer.merge, ParameterSet.copy]⟩

/-- Witness for C5: dst binds x and y and carries two relation rules, src
rebinds y and carries one; merge with override=False keeps the y entry of
dst, merge with override=True takes the one of src, and both results carry
three relation rules. -/
theorem merge_override_semantics_witness :
    (PyDict.find?
        (ParamComposer.merge
          ⟨[("x", Entry.param ⟨PyVal.none, PyVal.int 1, []⟩),
            ("y", Entry.param ⟨PyVal.none, PyVal.int 2, []⟩)],
           [(⟨["a"], fun _ => true⟩, CheckTargets.args ["x"]),
            (⟨["b"], fun _ => true⟩, CheckTargets.args ["y"])]⟩
          ⟨[("y", Entry.param ⟨PyVal.none, PyVal.int 3, []⟩)],
           [(⟨["c"], fun _ => true⟩, CheckTargets.args ["y"])]⟩ false).data "y"
      = Option.some (Entry.param ⟨PyVal.none, PyVal.int 2, []⟩))
    ∧ (PyDict.find?
        (ParamComposer.merge
          ⟨[("x", Entry.param ⟨PyVal.none, PyVal.int 1, []⟩),
            ("y", Entry.param ⟨PyVal.none, PyVal.int 2, []⟩)],
           [(⟨["a"], fun _ => true⟩, CheckTargets.args ["x"]),
            (⟨["b"], fun _ => true⟩, CheckTargets.args ["y"])]⟩
          ⟨[("y", Entry.param ⟨PyVal.none, PyVal.int 3, []⟩)],
           [(⟨["c"], fun _ => true⟩, CheckTargets.args ["y"])]⟩ true).data "y"
      = Option.some (Entry.param ⟨PyVal.none, PyVal.int 3, []⟩))
    ∧ (ParamComposer.merge
          ⟨[("x", Entry.param ⟨PyVal.none, PyVal.int 1, []⟩),
            ("y", Entry.param ⟨PyVal.none, PyVal.int 2, []⟩)],
           [(⟨["a"], fun _ => true⟩, CheckTargets.args ["x"]),
            (⟨["b"], fun _ => true⟩, CheckTargets.args ["y"])]⟩
          ⟨[("y", Entry.param ⟨PyVal.none, PyVal.int 3, []⟩)],
           [(⟨["c"], fun _ => true⟩, CheckTargets.args ["y"])]⟩ false).relation_rules.length
      = 3 := by
  refine ⟨?_, ?_, ?_⟩
  · rw [(merge_override_semantics_and_rule_accumulation _ _ "y").1 (by decide)]
    rfl
  · rw [(merge_override_semantics_and_rule_accumulation _ _ "y").2.1 (by decide) (by decide)]
    rfl
  · rw [((merge_override_semantics_and_rule_accumulation _ _ "y").2.2 false).2]
    rfl

/-- Claim C6: for named parameter sets A and B that both bind a name n (with
the distinct keys every Python dictionary has), `compose()` with precedence
[A, B] yields the binding of B for n, and with precedence [B, A] the binding
of A: the last set in precedence order wins on name conflicts. -/
theorem compose_last_precedence_wins (A B : ParameterSet) (n : String)
    (hA : PyDict.hasKey A.data n = true) (hB : PyDict.hasKey B.data n = true)
    (hAnd : (A.data.map Prod.fst).Nodup) (hBnd : (B.data.map Prod.fst).Nodup) :
    PyDict.find? (ParamComposer.ofNamed [("A", A), ("B", B)]).compose.data n
      = PyDict.find? B.data n
    ∧ PyDict.find? (ParamComposer.ofNamed [("B", B), ("A", A)]).compose.data n
      = PyDict.find? A.data n := by
  constructor
  · have hc : (ParamComposer.ofNamed [("A", A), ("B", B)]).compose
        = ParamComposer.merge
            (ParamComposer.merge ⟨[], []⟩ A true) B true := rfl
    rw [hc]
    exact PyDict.find?_mergeData_true B.data _ n hBnd hB
  · have hc : (ParamComposer.ofNamed [("B", B), ("A", A)]).compose
        = ParamComposer.merge
            (ParamComposer.merge ⟨[], []⟩ B true) A true := rfl
    rw [hc]
    exact PyDict.find?_mergeData_true A.data _ n hAnd hA

/-- Witness for C6: with A binding n to 1 and B binding n to 2, the
composition [A, B] reads back 2 and [B, A] reads back 1. -/
theorem compose_last_precedence_wins_witness :
    PyDict.find? (ParamComposer.ofNamed
        [("A", (⟨[("n", Entry.param ⟨PyVal.none, PyVal.int 1, []⟩)], []⟩ : ParameterSet)),
         ("B", ⟨[("n", Entry.param ⟨PyVal.none, PyVal.int 2, []⟩)], []⟩)]).compose.data "n"
      = Option.some (Entry.param ⟨PyVal.none, PyVal.int 2, []⟩)
    ∧ PyDict.find? (ParamComposer.ofNamed
        [("B", (⟨[("n", Entry.param ⟨PyVal.none, PyVal.int 2, []⟩)], []⟩ : ParameterSet)),
         ("A", ⟨[("n", Entry.param ⟨PyVal.none, PyVal.int 1, []⟩)], []⟩)]).compose.data "n"
      = Option.some (Entry.param ⟨PyVal.none, PyVal.int 1, []⟩) := by
  have h := compose_last_precedence_wins
    ⟨[("n", Entry.param ⟨PyVal.none, PyVal.int 1, []⟩)], []⟩
    ⟨[("n", Entry.param ⟨PyVal.none, PyVal.int 2, []⟩)], []⟩
    "n" (by decide) (by decide) (by decide) (by decide)
  exact ⟨h.1.trans rfl, h.2.trans rfl⟩

-- ==== Claims about the validator ====

/-- Claim C1: for a `ParameterSet` with exactly one parameter whose single
type rule fails on the parameter value, the claim says `validate()` with
strict=False returns False with exactly one failing report entry carrying
the rule name, and with strict=True raises the aggregate
`GlobalValidationError`.  The code instead raises `UnboundLocalError` on
every call: the loop header reads the local variable `checks`, which no
execution path assigns.  Evaluated on the one-parameter set (runtime value
"abc" against `TypeRule(int)`): `init_checks` does build exactly the one
expected check and the rule does fail on the value, but both strict modes
end in the `UnboundLocalError`; no boolean is returned, no report is built
and no `GlobalValidationError` is raised. -/
theorem validate_raises_unbound_local :
    Validator.validate ⟨⟨[("p", Entry.param ⟨PyVal.str "abc", PyVal.none,
        [SingleValueRule.typeRule [PyType.int]]⟩)], []⟩, false⟩
      = Except.error (PyExc.unboundLocalError "checks")
    ∧ Validator.validate ⟨⟨[("p", Entry.param ⟨PyVal.str "abc", PyVal.none,
        [SingleValueRule.typeRule [PyType.int]]⟩)], []⟩, true⟩
      = Except.error (PyExc.unboundLocalError "checks")
    ∧ Validator.init_checks ⟨⟨[("p", Entry.param ⟨PyVal.str "abc", PyVal.none,
        [SingleValueRule.typeRule [PyType.int]]⟩)], []⟩, false⟩
      = Except.ok [Checker.mk (RuleRef.single (SingleValueRule.typeRule [PyType.int]))
          (CheckTargets.args ["p"])]
    ∧ SingleValueRule.checkE (SingleValueRule.typeRule [PyType.int]) (PyVal.str "abc")
      = Except.ok false :=
  ⟨rfl, rfl, rfl, rfl⟩

/-- Claim C4: for a relation rule registered with a mapping target-spec, the
claim says the predicate is invoked by keyword, each keyword named by the
formal argument name (the VALUE of the mapping) and bound to the value of
the parameter named by the corresponding mapping key.  The code instead
names each keyword after the mapping KEY: `bind_targets` iterates the
target dictionary, which yields its keys, and never reads the mapping
values.  Evaluated on the set (a=1, b=2), the predicate with formals
(x, y) and the mapping (a to x, b to y): the bound keywords are a and b,
so the call raises `TypeError` (unexpected keyword argument a), while the
invocation the claim describes, with keywords x=1 and y=2, would have
succeeded. -/
theorem kwargs_binding_uses_mapping_keys :
    Checker.bind_targets
        ⟨RuleRef.multi ⟨["x", "y"], fun vs => vs == [PyVal.int 1, PyVal.int 2]⟩,
         CheckTargets.kwargs [("a", "x"), ("b", "y")]⟩
        ⟨[("a", Entry.param ⟨PyVal.int 1, PyVal.none, []⟩),
          ("b", Entry.param ⟨PyVal.int 2, PyVal.none, []⟩)], []⟩
      = Except.ok (BoundValues.kwargs [("a", PyVal.int 1), ("b", PyVal.int 2)])
    ∧ Checker.checkRun
        ⟨RuleRef.multi ⟨["x", "y"], fun vs => vs == [PyVal.int 1, PyVal.int 2]⟩,
         CheckTargets.kwargs [("a", "x"), ("b", "y")]⟩
        ⟨[("a", Entry.param ⟨PyVal.int 1, PyVal.none, []⟩),
          ("b", Entry.param ⟨PyVal.int 2, PyVal.none, []⟩)], []⟩
      = Except.error (PyExc.typeError "a")
    ∧ MultiValueRule.callKwargs
        ⟨["x", "y"], fun vs => vs == [PyVal.int 1, PyVal.int 2]⟩
        [("x", PyVal.int 1), ("y", PyVal.int 2)]
      = Except.ok true :=
  ⟨rfl, rfl, rfl⟩

-- ==== Claims about the sweep generator ====

/-- Claim C2: for a set with two sweep parameters of sizes 2 and 3 and one
static parameter, the claim says `generate_sweep_grid()` returns exactly 6
parameter sets covering the cartesian product in lexicographic order with
the static value unchanged.  The code instead raises
`OverrideParameterError` on the very first combination:
`ParamGrid.generate_params` collects the return values of `Param.set`,
which is a list of `None`, and the replacement `new_set[k] = p` goes
through `__setitem__`, whose delegate `add` refuses every name already
present in the copied set.  This theorem evaluates the embedded code at
such a set (sweep dimensions a of size 2 and b of size 3, static c) and
also records the `None` list produced for the first sweep dimension. -/
theorem generate_sweep_grid_raises_override :
    ParameterSet.generate_sweep_grid
        ⟨[("a", Entry.grid ⟨⟨PyVal.none, PyVal.none, []⟩, [PyVal.int 1, PyVal.int 2]⟩),
          ("b", Entry.grid ⟨⟨PyVal.none, PyVal.none, []⟩,
            [PyVal.int 10, PyVal.int 20, PyVal.int 30]⟩),
          ("c", Entry.param ⟨PyVal.none, PyVal.str "foo", []⟩)], []⟩
      = Except.error (PyExc.overrideParameterError "a")
    ∧ ParamGrid.generate_params ⟨⟨PyVal.none, PyVal.none, []⟩, [PyVal.int 1, PyVal.int 2]⟩
      = [PyVal.none, PyVal.none] :=
  ⟨rfl, rfl⟩

-- ==== Heap lemmas ====

theorem PyDict.find?_mergeData_not_dst (src : List (String × β))
    (dst : List (String × β)) (b : Bool) (n : String)
    (hdst : PyDict.hasKey dst n = false) (hnd : (src.map Prod.fst).Nodup)
    (h : PyDict.hasKey src n = true) :
    PyDict.find? (PyDict.mergeData dst src b) n = PyDict.find? src n := by
  induction src generalizing dst with
  | nil => simp [PyDict.hasKey] at h
  | cons kv rest ih =>
    rw [List.map_cons, List.nodup_cons] at hnd
    show PyDict.find? (PyDict.mergeData
      (if !(PyDict.hasKey dst kv.1) || b then PyDict.set dst kv.1 kv.2 else dst)
      rest b) n = PyDict.find? (kv :: rest) n
    cases hkv : kv.1 == n with
    | true =>
      have hk : kv.1 = n := by simpa using hkv
      have hrest : PyDict.hasKey rest n = false := by
        cases hr : PyDict.hasKey rest n
        · rfl
        · exact absurd (hk ▸ (PyDict.hasKey_iff_mem rest n).mp hr) hnd.1
      have hck : PyDict.hasKey dst kv.1 = false := by rw [hk]; exact hdst
      rw [PyDict.find?_mergeData_not_src rest _ b n hrest, hck]
      simp [PyDict.find?_cons, hkv, hk, PyDict.find?_set_self]
    | false =>
      have hrest : PyDict.hasKey rest n = true := by
        rw [PyDict.hasKey_cons, hkv] at h
        simpa using h
      cases hc : !(PyDict.hasKey dst kv.1) || b with
      | true =>
        have hkey : PyDict.hasKey (PyDict.set dst kv.1 kv.2) n = false := by
          rw [PyDict.hasKey_set, hdst, hkv]
          rfl
        simpa [PyDict.find?_cons, hkv] using ih _ hkey hnd.2 hrest
      | false =>
        simpa [PyDict.find?_cons, hkv] using ih _ hdst hnd.2 hrest

theorem RefSet.keys_deepcopy (h : Heap) (s : RefSet) :
    (RefSet.deepcopy h s).2.data.map Prod.fst = s.data.map Prod.fst := by
  show (s.data.enum.map fun ikv => ((ikv.2.1 : String), h.cells.length + ikv.1)).map
      Prod.fst = s.data.map Prod.fst
  rw [List.map_map]
  have h1 : (Prod.fst ∘ fun ikv : Nat × (String × Nat) =>
      ((ikv.2.1 : String), h.cells.length + ikv.1)) = (Prod.fst ∘ Prod.snd) := rfl
  rw [h1, ← List.map_map, List.enum_map_snd]

theorem RefSet.deepcopy_addr_ge (h : Heap) (s : RefSet) (a : Nat)
    (ha : a ∈ (RefSet.deepcopy h s).2.addrs) : h.cells.length ≤ a := by
  simp only [RefSet.deepcopy, RefSet.addrs, List.map_map, List.mem_map,
    Function.comp] at ha
  obtain ⟨ikv, _, heq⟩ := ha
  omega

theorem Heap.read_write_ne (h : Heap) (a1 a2 : Nat) (p : Param) (hne : a2 ≠ a1) :
    (h.write a2 p).read a1 = h.read a1 := by
  simp [Heap.read, Heap.write, List.getElem?_set_ne hne]

theorem Heap.read_extend (h : Heap) (extra : List Param) (a : Nat)
    (ha : a < h.cells.length) :
    Heap.read ⟨h.cells ++ extra⟩ a = h.read a := by
  simp [Heap.read, List.getElem?_append_left ha]

theorem Heap.read_write_self (h : Heap) (a : Nat) (p : Param)
    (ha : a < h.cells.length) :
    (h.write a p).read a = p := by
  simp [Heap.read, Heap.write, List.getElem?_set_self ha]

-- ==== Claims about shared mutable state ====

/-- Claim C8 counterexample: merging an empty dst with a src that binds n to
the object at address 0 produces a merged set that holds address 0 itself;
setting the value of parameter n of the merged set to 7 changes the value
read through src from None to 7.  The claim says the result of merge shares
no mutable state with src, so such a mutation could never change src. -/
theorem merge_result_mutation_changes_src :
    RefSet.readValue
        (RefSet.merge ⟨[⟨PyVal.none, PyVal.int 1, []⟩]⟩ ⟨[]⟩ ⟨[("n", 0)]⟩ false).1
        ⟨[("n", 0)]⟩ "n" = PyVal.none
    ∧ RefSet.readValue
        (RefSet.setValue
          (RefSet.merge ⟨[⟨PyVal.none, PyVal.int 1, []⟩]⟩ ⟨[]⟩ ⟨[("n", 0)]⟩ false).1
          (RefSet.merge ⟨[⟨PyVal.none, PyVal.int 1, []⟩]⟩ ⟨[]⟩ ⟨[("n", 0)]⟩ false).2
          "n" (PyVal.int 7))
        ⟨[("n", 0)]⟩ "n" = PyVal.int 7
    ∧ PyDict.find?
        (RefSet.merge ⟨[⟨PyVal.none, PyVal.int 1, []⟩]⟩ ⟨[]⟩ ⟨[("n", 0)]⟩ false).2.data
        "n" = Option.some 0 :=
  ⟨rfl, rfl, rfl⟩

/-- Claim C8 amended: `copy()` produces an object sharing no mutable state
with the original (mutating any object of the copy leaves every object of
the original unchanged), but the result of `merge(dst, src, override)` is
NOT isolated from src: for every name it takes from src (override set, or
the name absent from dst) the merged set holds the very `Param` object of
src, and setting a value on an object shared by two sets changes the value
read through both. -/
theorem copy_isolates_but_merge_aliases_src :
    (∀ (h : Heap) (s : RefSet), (∀ a ∈ s.addrs, a < h.cells.length) →
      ∀ a2 ∈ (RefSet.deepcopy h s).2.addrs, ∀ a1 ∈ s.addrs, ∀ p : Param,
        a1 ≠ a2
          ∧ Heap.read (Heap.write (RefSet.deepcopy h s).1 a2 p) a1 = h.read a1)
    ∧ (∀ (h : Heap) (dst src : RefSet) (override : Bool) (n : String),
        (override = true ∨ PyDict.hasKey dst.data n = false) →
        (src.data.map Prod.fst).Nodup → PyDict.hasKey src.data n = true →
        PyDict.find? (RefSet.merge h dst src override).2.data n
          = PyDict.find? src.data n)
    ∧ (∀ (h : Heap) (s1 s2 : RefSet) (n : String) (a : Nat) (v : PyVal),
        a < h.cells.length →
        PyDict.find? s1.data n = Option.some a →
        PyDict.find? s2.data n = Option.some a →
        RefSet.readValue (RefSet.setValue h s1 n v) s2 n = v) := by
  refine ⟨?_, ?_, ?_⟩
  · intro h s hvalid a2 ha2 a1 ha1 p
    have h1 : a1 < h.cells.length := hvalid a1 ha1
    have h2 : h.cells.length ≤ a2 := RefSet.deepcopy_addr_ge h s a2 ha2
    refine ⟨by omega, ?_⟩
    rw [Heap.read_write_ne _ _ _ _ (by omega)]
    exact Heap.read_extend h _ a1 h1
  · intro h dst src override n hcase hnd hn
    cases hcase with
    | inl hov =>
      subst hov
      exact PyDict.find?_mergeData_true src.data _ n hnd hn
    | inr hdst =>
      have hcopy : PyDict.hasKey (RefSet.deepcopy h dst).2.data n = false := by
        cases hk : PyDict.hasKey (RefSet.deepcopy h dst).2.data n
        · rfl
        · exfalso
          have hmem := (PyDict.hasKey_iff_mem _ n).mp hk
          rw [RefSet.keys_deepcopy] at hmem
          have := (PyDict.hasKey_iff_mem dst.data n).mpr hmem
          rw [hdst] at this
          exact absurd this (by simp)
      exact PyDict.find?_mergeData_not_dst src.data _ override n hcopy hnd hn
  · intro h s1 s2 n a v hlen h1 h2
    simp [RefSet.setValue, RefSet.readValue, h1, h2,
      Heap.read_write_self _ _ _ hlen]

/-- Witness for the amended C8: on a one-cell heap, mutating the fresh copy
of the set binding n to address 0 (the copy lives at address 1) leaves the
original object unchanged; merging that set into an empty dst with
override keeps address 0 itself; and setting n to 7 through one holder of
address 0 is read back as 7 through the other. -/
theorem copy_isolates_but_merge_aliases_src_witness :
    (0 ≠ 1
      ∧ Heap.read
          (Heap.write
            (RefSet.deepcopy ⟨[⟨PyVal.none, PyVal.int 1, []⟩]⟩ ⟨[("n", 0)]⟩).1
            1 ⟨PyVal.int 9, PyVal.none, []⟩)
          0 = Heap.read ⟨[⟨PyVal.none, PyVal.int 1, []⟩]⟩ 0)
    ∧ PyDict.find?
        (RefSet.merge ⟨[⟨PyVal.none, PyVal.int 1, []⟩]⟩ ⟨[]⟩ ⟨[("n", 0)]⟩ true).2.data
        "n" = PyDict.find? [("n", 0)] "n"
    ∧ RefSet.readValue
        (RefSet.setValue ⟨[⟨PyVal.none, PyVal.int 1, []⟩]⟩ ⟨[("n", 0)]⟩ "n"
          (PyVal.int 7))
        ⟨[("n", 0)]⟩ "n" = PyVal.int 7 := by
  refine ⟨?_, ?_, ?_⟩
  · exact copy_isolates_but_merge_aliases_src.1 ⟨[⟨PyVal.none, PyVal.int 1, []⟩]⟩
      ⟨[("n", 0)]⟩ (by decide) 1 (by decide) 0 (by decide) ⟨PyVal.int 9, PyVal.none, []⟩
  · exact copy_isolates_but_merge_aliases_src.2.1 ⟨[⟨PyVal.none, PyVal.int 1, []⟩]⟩
      ⟨[]⟩ ⟨[("n", 0)]⟩ true "n" (Or.inl rfl) (by decide) (by decide)
  · exact copy_isolates_but_merge_aliases_src.2.2 ⟨[⟨PyVal.none, PyVal.int 1, []⟩]⟩
      ⟨[("n", 0)]⟩ ⟨[("n", 0)]⟩ "n" 0 (PyVal.int 7) (by decide) (by decide) (by decide)

end Tessara
